import Mathlib

/-!
Formal model of `src/main.py` of the yt-content-research-tool repository.

The Python program has two stages: a concurrent keyword-expansion stage
(`get_suggestions`, `is_allowed`, `keyword_worker`, shared state
`collected` / `task_queue` / `depth_map` / `keyword_source` / `keyword_tree`)
and a video-harvesting stage (`is_video_relevant`, `scrape_single_keyword`,
`scrape_videos`).  This file gives a shallow embedding of those functions
and proves the stated properties about them.

Python strings are modelled at the character-list level (`List Char`) with
structural recursion, so that every definition evaluates inside the kernel;
`lower` / `strip` / `split` / substring containment are re-implemented to
match Python semantics (in particular, the empty string is a substring of
every string, and `split()` with no argument splits on whitespace runs and
drops empty pieces).
-/

/-! ## Python string primitives -/

/-- Python's notion of whitespace for `str.strip()` / `str.split()`
(space, tab, newline, carriage return, vertical tab, form feed). -/
def pyIsSpace (c : Char) : Bool :=
  c = ' ' || c = '\t' || c = '\n' || c = '\r' || c = '\x0b' || c = '\x0c'

/-- Python `str.strip()`: drop leading and trailing whitespace. -/
def pyStrip (s : List Char) : List Char :=
  ((s.dropWhile pyIsSpace).reverse.dropWhile pyIsSpace).reverse

/-- Python `str.lower()` (ASCII-adequate, via `Char.toLower`). -/
def pyLower (s : String) : String := ⟨s.data.map Char.toLower⟩

/-- Helper for `pySplit`: accumulate the current word (reversed) while
scanning; whitespace closes the current word, empty words are dropped. -/
def pySplitGo : List Char → List Char → List (List Char)
  | [], acc => if acc.isEmpty then [] else [acc.reverse]
  | c :: rest, acc =>
    if pyIsSpace c then
      if acc.isEmpty then pySplitGo rest [] else acc.reverse :: pySplitGo rest []
    else pySplitGo rest (c :: acc)

/-- Python `str.split()` with no argument: split on whitespace runs,
discarding empty pieces. -/
def pySplit (s : List Char) : List (List Char) := pySplitGo s []

/-- Helper for `strContains`: does `needle` occur contiguously in the
scanned list? -/
def strContainsAux (needle : List Char) : List Char → Bool
  | [] => needle.isEmpty
  | c :: rest => needle.isPrefixOf (c :: rest) || strContainsAux needle rest

/-- Python's `needle in hay` on strings: contiguous-substring test.
As in Python, the empty needle is contained in every string. -/
def strContains (hay needle : String) : Bool :=
  strContainsAux needle.data hay.data

/-! ## Configuration constants (source lines 42-91) -/

def MAX_KEYWORDS : Nat := 5000

def MAX_DEPTH : Nat := 4

def MAX_RESULTS_PER_KEYWORD : Nat := 20

def VIDEO_STRICTNESS : String := "strict"

def FILTER_KEYWORDS : List String :=
  ["free", "porn", "sex", "xxx", "hentai", "download", "mp3", "torrent"]

def ENDPOINTS : List String :=
  ["https://clients1.google.com/complete/search?client=youtube&gs_ri=youtube&ds=yt&gl=IN&hl=en-IN&q=\x7b\x7d",
   "https://clients1.google.com/complete/search?client=youtube&gs_ri=youtube&ds=yt&gl=IN&hl=hi&q=\x7b\x7d"]

/-! ## Term filter (source `is_allowed`, lines 162-165) -/

/-- `is_allowed(keyword)`: reject a candidate whose lower-cased form
contains any configured disallowed substring. -/
def is_allowed (keyword : String) : Bool :=
  !(FILTER_KEYWORDS.any (fun f => strContains (pyLower keyword) f))

/-! ## Frontier store (source globals, lines 104-110) -/

/-- Association-list lookup modelling Python `dict` access
(`m.get(k)` / `k in m`). -/
def lookupKV {α : Type} (m : List (String × α)) (k : String) : Option α :=
  (m.find? (fun p => p.1 == k)).map (fun p => p.2)

/-- Association-list insert modelling Python `m[k] = v` (a later insert
shadows any earlier binding of the same key). -/
def insertKV {α : Type} (m : List (String × α)) (k : String) (v : α) :
    List (String × α) :=
  (k, v) :: m

/-- The shared mutable state of the keyword-expansion stage:
`collected` (a set, represented as a duplicate-free list), the FIFO
`task_queue`, the `depth_map` and `keyword_source` dicts and the
`keyword_tree` lineage edges in append order. -/
structure FrontierState where
  collected : List String
  task_queue : List String
  depth_map : List (String × Nat)
  keyword_source : List (String × String)
  keyword_tree : List (String × String)
deriving DecidableEq, Repr

/-- The body of the `for s in suggestions` loop of `keyword_worker`
(source lines 191-202) for one already-filter-approved suggestion `s`
of parent `kw` claimed at depth `depth`: record the lineage edge
unconditionally; if `s` is not collected, (re-)assign its depth,
assign its origin only if absent, and enqueue it. -/
def accept_child (st : FrontierState) (kw s : String) (depth : Nat) :
    FrontierState :=
  let st1 := { st with keyword_tree := st.keyword_tree ++ [(kw, s)] }
  if s ∈ st1.collected then st1
  else
    { st1 with
      depth_map := insertKV st1.depth_map s (depth + 1),
      keyword_source :=
        (if (lookupKV st1.keyword_source s).isSome then st1.keyword_source
         else insertKV st1.keyword_source s ((lookupKV st1.keyword_source kw).getD kw)),
      task_queue := st1.task_queue ++ [s] }

/-- The suggestion-processing loop of `keyword_worker`: fold
`accept_child` over the suggestions that pass the term filter. -/
def expand_children (kw : String) (depth : Nat) (st : FrontierState)
    (suggestions : List String) : FrontierState :=
  suggestions.foldl
    (fun acc s => if is_allowed s then accept_child acc kw s depth else acc) st

/-- One iteration of `keyword_worker` (source lines 168-203) on a term
`kw` just claimed from the queue, with the suggestion-service reply
given as the oracle list `suggestions`.  Returns the new state and
whether the term was actually expanded (i.e. whether `get_suggestions`
was called): the worker first reads the claimed term's depth, returns
untouched when the keyword cap is reached, skips the term when its
depth exceeds the maximum, and otherwise fetches suggestions, adds the
term to `collected` if new, and processes the children. -/
def keyword_worker_step (maxKeywords maxDepth : Nat) (st : FrontierState)
    (kw : String) (suggestions : List String) : FrontierState × Bool :=
  let depth := (lookupKV st.depth_map kw).getD 0
  if st.collected.length ≥ maxKeywords then (st, false)
  else if depth > maxDepth then (st, false)
  else
    let st1 := if kw ∈ st.collected then st
               else { st with collected := st.collected ++ [kw] }
    (expand_children kw depth st1 suggestions, true)

/-- Seed initialisation of `scrape_keywords` (source lines 212-215):
each seed gets depth 0, origin itself, and a queue entry. -/
def init_frontier (seeds : List String) : FrontierState :=
  seeds.foldl
    (fun st kw =>
      { st with
        depth_map := insertKV st.depth_map kw 0,
        keyword_source := insertKV st.keyword_source kw kw,
        task_queue := st.task_queue ++ [kw] })
    { collected := [], task_queue := [], depth_map := [],
      keyword_source := [], keyword_tree := [] }

/-- A sequential execution of the worker loop: repeatedly pop the queue
head and run `keyword_worker_step` on it, for at most `fuel` steps.
Also returns the list of terms whose expansion (suggestion fetch)
actually ran, one occurrence per expansion performed. -/
def run_workers (maxKeywords maxDepth : Nat) (sugg : String → List String) :
    Nat → FrontierState → FrontierState × List String
  | 0, st => (st, [])
  | fuel + 1, st =>
    match st.task_queue with
    | [] => (st, [])
    | kw :: rest =>
      let stp := { st with task_queue := rest }
      let r := keyword_worker_step maxKeywords maxDepth stp kw (sugg kw)
      let rr := run_workers maxKeywords maxDepth sugg fuel r.1
      (rr.1, (if r.2 then [kw] else []) ++ rr.2)

/-- Concrete suggestion oracle used for counterexample traces:
"alpha" suggests "beta" and "gamma", "beta" suggests "gamma". -/
def suggOracle : String → List String :=
  fun kw =>
    if kw = "alpha" then ["beta", "gamma"]
    else if kw = "beta" then ["gamma"]
    else []

/-! ## Suggestion client (source `get_suggestions`, lines 121-159) -/

/-- A JSON value as decoded by `json.loads` (objects are not needed for
the suggestion payloads and are not modelled). -/
inductive JsonVal where
  | s (v : String)
  | l (xs : List JsonVal)
  | n (v : Int)
  | b (v : Bool)
  | nullv

/-- A hashable JSON value, i.e. one that Python can insert into a `set`.
The `results` set of `get_suggestions` only ever holds such values:
inserting a list raises `TypeError` before the insertion happens. -/
inductive JsonAtom where
  | s (v : String)
  | n (v : Int)
  | b (v : Bool)
  | nullv
deriving DecidableEq, Repr

/-- Python truthiness of a JSON value. -/
def truthy : JsonVal → Bool
  | .s v => v ≠ ""
  | .l xs => !xs.isEmpty
  | .n v => v ≠ 0
  | .b v => v
  | .nullv => false

/-- Python `len(...)`: defined on strings and lists, raises `TypeError`
(modelled as `none`) on other JSON values. -/
def pyLen : JsonVal → Option Nat
  | .s v => some v.data.length
  | .l xs => some xs.length
  | _ => none

/-- Python indexing `x[i]`: element of a list, one-character string of a
string, raises (modelled as `none`) otherwise or out of range. -/
def pyIndex : JsonVal → Nat → Option JsonVal
  | .l xs, i => xs.get? i
  | .s v, i => (v.data.get? i).map (fun c => JsonVal.s ⟨[c]⟩)
  | _, _ => none

/-- Python iteration `for item in x`: the elements of a list, the
one-character strings of a string, raises (modelled as `none`)
otherwise. -/
def pyIter : JsonVal → Option (List JsonVal)
  | .l xs => some xs
  | .s v => some (v.data.map (fun c => JsonVal.s ⟨[c]⟩))
  | _ => none

/-- The hashable view of a JSON value; `none` for a list (unhashable,
`set.add` raises `TypeError`). -/
def atomOf : JsonVal → Option JsonAtom
  | .s v => some (.s v)
  | .n v => some (.n v)
  | .b v => some (.b v)
  | .nullv => some .nullv
  | .l _ => none

/-- Python `set.add`: insert unless already present (insertion order kept
so the model is a concrete list). -/
def setAddAtom (results : List JsonAtom) (x : JsonAtom) : List JsonAtom :=
  if x ∈ results then results else results ++ [x]

/-- The `for item in data[1]` loop of `get_suggestions` (source lines
144-148): an entry that is a non-empty list contributes its first
element (raising, flag `false`, if that element is unhashable), a string
entry contributes itself, anything else is skipped.  The boolean is
`false` when an exception aborted the loop; additions made before the
exception are kept, as the Python `set` is mutated in place. -/
def addItems : List JsonAtom → List JsonVal → List JsonAtom × Bool
  | results, [] => (results, true)
  | results, item :: rest =>
    match item with
    | .l (x :: _) =>
      (match atomOf x with
       | none => (results, false)
       | some a => addItems (setAddAtom results a) rest)
    | .l [] => addItems results rest
    | .s v => addItems (setAddAtom results (.s v)) rest
    | _ => addItems results rest

/-- Processing of an HTTP-200 response body in `get_suggestions`
(source lines 137-149).  `content` is the decoded payload after the
optional JSONP-wrapper strip, `none` meaning the decode raised.  The
flag is `true` when the branch completed without an exception (hitting
`break`), `false` when an exception was raised (caught by the worker,
which sleeps and retries); partial additions survive either way. -/
def processPayload (content : Option JsonVal) (results : List JsonAtom) :
    List JsonAtom × Bool :=
  match content with
  | none => (results, false)
  | some data =>
    match pyLen data with
    | none => (results, false)
    | some len =>
      if len > 1 then
        match pyIndex data 1 with
        | none => (results, false)
        | some d1 =>
          if truthy d1 then
            match pyIter d1 with
            | none => (results, false)
            | some items => addItems results items
          else (results, true)
      else (results, true)

/-- One observed reply of the suggestion endpoint `e` on attempt `a`:
either an HTTP response with a status code and (for 200) a decoded
payload, or a raised request exception. -/
inductive SuggResp where
  | http (status : Nat) (content : Option JsonVal)
  | exn

/-- The inner `for attempt in range(3)` loop of `get_suggestions` for
endpoint `e` (source lines 129-157), over the list of remaining attempt
indices.  Accumulates the results set and the log of issued requests
`(endpoint, attempt)`.  A 200 whose processing completes breaks out of
the attempt loop; a 403 sleeps and retries; another status breaks; an
exception (network error or parse error) sleeps one second and
retries. -/
def suggAttempts (resp : Nat → Nat → SuggResp) (e : Nat) :
    List Nat → List JsonAtom → List (Nat × Nat) →
    List JsonAtom × List (Nat × Nat)
  | [], results, reqs => (results, reqs)
  | a :: rest, results, reqs =>
    let reqs2 := reqs ++ [(e, a)]
    match resp e a with
    | .exn => suggAttempts resp e rest results reqs2
    | .http status content =>
      if status = 200 then
        match processPayload content results with
        | (results2, true) => (results2, reqs2)
        | (results2, false) => suggAttempts resp e rest results2 reqs2
      else if status = 403 then suggAttempts resp e rest results reqs2
      else (results, reqs2)

/-- `get_suggestions(query)` (source lines 121-159), with the network
modelled by the oracle `resp`: iterate over all configured endpoints,
running the three-attempt loop for each, and return the accumulated
deduplicated result set together with the log of issued requests. -/
def get_suggestions (resp : Nat → Nat → SuggResp) :
    List JsonAtom × List (Nat × Nat) :=
  (List.range ENDPOINTS.length).foldl
    (fun acc e => suggAttempts resp e (List.range 3) acc.1 acc.2) ([], [])

/-- Concrete network oracle for the endpoint-iteration counterexample:
endpoint 0 answers 200 with candidate "a", endpoint 1 answers 200 with
candidate "b", both structurally valid on the first attempt. -/
def respCex : Nat → Nat → SuggResp :=
  fun e _ =>
    if e = 0 then .http 200 (some (.l [.s "q", .l [.s "a"]]))
    else .http 200 (some (.l [.s "q", .l [.s "b"]]))

/-! ## Relevance scorer (source `normalize_text` / `is_video_relevant`,
lines 320-346) -/

/-- `normalize_text(text)`: empty stays empty, otherwise lower-case and
strip surrounding whitespace. -/
def normalize_text (text : String) : String :=
  if text = "" then "" else ⟨pyStrip (pyLower text).data⟩

/-- The word set of a string: Python `set(s.split())`, a deduplicated
list of whitespace-separated words. -/
def wordsOf (s : String) : List (List Char) := (pySplit s.data).dedup

/-- `is_video_relevant(keyword, video_title)` (source lines 327-346),
with the module-level `VIDEO_STRICTNESS` made an explicit argument.
The relaxed branch compares Python's float quotient
`len(common)/len(k_words)` with `0.5`; for these integer operands that
comparison is exactly `2*len(common) >= len(k_words)` (0.5 is exactly
representable and the operands are far below 2^52), which is the form
used here because it is kernel-computable. -/
def is_video_relevant (strictness keyword video_title : String) : Bool :=
  let k_norm := normalize_text keyword
  let t_norm := normalize_text video_title
  if strContains t_norm k_norm then true
  else
    let k_words := wordsOf k_norm
    let t_words := wordsOf t_norm
    if k_words.isEmpty then false
    else
      let common_words := k_words.filter (fun w => t_words.contains w)
      if strictness = "strict" then
        decide (common_words.length ≥
          (if k_words.length > 1 then k_words.length - 1 else 1))
      else
        decide (2 * common_words.length ≥ k_words.length)

/-- The keyword's word count after normalization, as the specification
describes it. -/
def keywordWordCount (kw : String) : Nat := (wordsOf (normalize_text kw)).length

/-- The size of the intersection of the two word sets, as the
specification describes it. -/
def intersectionCount (kw title : String) : Nat :=
  ((wordsOf (normalize_text kw)).filter
    (fun w => (wordsOf (normalize_text title)).contains w)).length

/-- Required matches under the strict policy, as the specification
describes it: word count minus one for a multi-word keyword, else 1. -/
def requiredMatchesSpec (kw : String) : Nat :=
  if keywordWordCount kw > 1 then keywordWordCount kw - 1 else 1

/-! ## Search client (source `scrape_single_keyword`, lines 349-445) -/

/-- One raw entry of the search provider's reply, with the fields
`scrape_single_keyword` reads off a yt-dlp entry dict (`none` models an
absent or `None` field). -/
structure VideoEntry where
  title : Option String
  uploader : Option String
  channel : Option String
  view_count : Option Nat
  url : Option String
  webpage_url : Option String
  duration_string : Option String
  duration : Option Nat
deriving DecidableEq, Repr

/-- Python `a or b` for an optional string against a string default:
`None` and the empty string are falsy. -/
def pyOrStr (a : Option String) (b : String) : String :=
  match a with
  | some s => if s = "" then b else s
  | none => b

/-- Python `a or b` on two optional strings: `None` and the empty string
are falsy; the result may still be `None`. -/
def pyOrOpt (a b : Option String) : Option String :=
  match a with
  | some s => if s = "" then b else some s
  | none => b

/-- Python's `f"{n:02d}"`: decimal with zero-padding to two digits. -/
def pad2 (n : Nat) : String := if n < 10 then "0" ++ toString n else toString n

/-- The duration formatting of `scrape_single_keyword` (source lines
392-397): `m, s = divmod(d, 60); h, m = divmod(m, 60)`, then `H:MM:SS`
when `h > 0`, else `M:SS`. -/
def format_duration (d : Nat) : String :=
  let s := d % 60
  let m0 := d / 60
  let h := m0 / 60
  let m := m0 % 60
  if h > 0 then toString h ++ ":" ++ pad2 m ++ ":" ++ pad2 s
  else toString m ++ ":" ++ pad2 s

/-- The `if duration_sec:`-guarded conversion (source lines 390-399):
a missing duration — or a duration of `0`, which is falsy in Python —
yields the sentinel `"N/A"`. -/
def duration_from_sec (d : Option Nat) : String :=
  match d with
  | some n => if n = 0 then "N/A" else format_duration n
  | none => "N/A"

/-- The full duration logic for one entry (source lines 388-399):
use the preformatted `duration_string` when present and non-empty
(`if not duration_str:` treats the empty string as absent), otherwise
convert the seconds field. -/
def duration_of_entry (duration_string : Option String) (duration : Option Nat) :
    String :=
  match duration_string with
  | some ds => if ds = "" then duration_from_sec duration else ds
  | none => duration_from_sec duration

/-- Duration normalization as the specification words it: convert the
seconds into `H:MM:SS` when hours > 0, else `M:SS`; an entirely unknown
duration maps to the sentinel.  Written independently of the code
(hours/minutes computed by `3600`-arithmetic) for comparison against
`duration_from_sec`. -/
def duration_spec (d : Option Nat) : String :=
  match d with
  | some n =>
    let hours := n / 3600
    let minutes := (n % 3600) / 60
    let secs := n % 60
    if hours > 0 then toString hours ++ ":" ++ pad2 minutes ++ ":" ++ pad2 secs
    else toString minutes ++ ":" ++ pad2 secs
  | none => "N/A"

/-- One row of `results_to_save` (source lines 401-409). -/
structure VideoRow where
  keyword : String
  rank : Nat
  title : String
  channel : String
  views : Nat
  link : Option String
  duration : String
deriving DecidableEq, Repr

/-- The `for entry in info['entries']` loop (source lines 378-410):
falsy (absent) entries and entries whose title is missing or empty are
skipped without consuming a rank; every other entry becomes a row and
increments the 1-based rank counter. -/
def build_rows (keyword : String) :
    List (Option VideoEntry) → Nat → List VideoRow
  | [], _ => []
  | none :: rest, rank => build_rows keyword rest rank
  | some e :: rest, rank =>
    match e.title with
    | none => build_rows keyword rest rank
    | some t =>
      if t = "" then build_rows keyword rest rank
      else
        { keyword := keyword, rank := rank, title := t,
          channel := pyOrStr e.uploader (pyOrStr e.channel "N/A"),
          views := e.view_count.getD 0,
          link := pyOrOpt e.url e.webpage_url,
          duration := duration_of_entry e.duration_string e.duration }
        :: build_rows keyword rest (rank + 1)

/-- Whether an entry survives the `if not entry: continue` and
`if not title: continue` guards. -/
def entry_has_title : Option VideoEntry → Bool
  | none => false
  | some e =>
    match e.title with
    | none => false
    | some t => t != ""

/-- The outcome of one `ydl.extract_info` call: a reply (whose `entries`
key may be absent, modelled by `none`), or an exception whose message
matches "429", matches "403"/"Forbidden", or neither. -/
inductive FetchResult where
  | ok (entries : Option (List (Option VideoEntry)))
  | err429
  | err403
  | errOther
deriving DecidableEq, Repr

/-- Observable events of one `scrape_single_keyword` call: a fetch
attempt with its 0-based index, or a `time.sleep` for the given number
of seconds. -/
inductive ScrapeEvent where
  | attempt (i : Nat)
  | wait (seconds : ℚ)
deriving DecidableEq, Repr

/-- The observable outcome of `scrape_single_keyword`: the rows it would
append to the output file (empty on abandonment), whether control
reached the write phase after the loop (`false` exactly on the early
`return`s that abandon the term), and the event log. -/
structure ScrapeOutcome where
  rows : List VideoRow
  committed : Bool
  events : List ScrapeEvent
deriving DecidableEq, Repr

/-- The `for attempt in range(max_retries)` loop of
`scrape_single_keyword` (source lines 372-430), over the list of
remaining attempt indices.  `fetch` is the provider oracle; `rand i`
models the `random.uniform(5, 10)` draw of attempt `i`, so the 403
backoff wait is `rand i + 5*i`.  A 429 sleeps 60 seconds and returns
(abandoning the term with no further attempts in this call); a 403
sleeps the backoff and retries unless this was the last attempt; any
other error returns immediately; a successful fetch builds the rows and
breaks.  The trailing 1-3 s politeness sleep after the write phase is
not part of the retry policy and is not logged. -/
def scrape_attempts (keyword : String) (fetch : Nat → FetchResult)
    (rand : Nat → ℚ) : List Nat → List ScrapeEvent → ScrapeOutcome
  | [], evs => { rows := [], committed := true, events := evs }
  | a :: rest, evs =>
    match fetch a with
    | .ok entries =>
      { rows := (match entries with
                 | some es => build_rows keyword es 1
                 | none => []),
        committed := true, events := evs ++ [.attempt a] }
    | .err429 =>
      { rows := [], committed := false,
        events := evs ++ [.attempt a, .wait 60] }
    | .err403 =>
      if rest.isEmpty then
        { rows := [], committed := false, events := evs ++ [.attempt a] }
      else
        scrape_attempts keyword fetch rand rest
          (evs ++ [.attempt a, .wait (rand a + 5 * a)])
    | .errOther =>
      { rows := [], committed := false, events := evs ++ [.attempt a] }

/-- `scrape_single_keyword(keyword, output_file)` with `max_retries = 3`
(source line 372). -/
def scrape_single_keyword (keyword : String) (fetch : Nat → FetchResult)
    (rand : Nat → ℚ) : ScrapeOutcome :=
  scrape_attempts keyword fetch rand (List.range 3) []

/-- Oracle that always raises a 429-equivalent error. -/
def fetch429 : Nat → FetchResult := fun _ => .err429

/-- Oracle that always raises a 403-equivalent error. -/
def fetch403 : Nat → FetchResult := fun _ => .err403

/-- Oracle that always raises a generic error. -/
def fetchOther : Nat → FetchResult := fun _ => .errOther

/-- A sample reply: one titled and one untitled entry. -/
def sampleEntries : List (Option VideoEntry) :=
  [some { title := some "Best Cat Video Ever", uploader := some "chan",
          channel := none, view_count := some 7, url := some "u1",
          webpage_url := none, duration_string := none,
          duration := some 45 },
   some { title := none, uploader := none, channel := none,
          view_count := none, url := none, webpage_url := none,
          duration_string := none, duration := none }]

/-- Oracle: 403 on the first attempt, then the sample reply. -/
def fetch403ThenOk : Nat → FetchResult :=
  fun i => if i = 0 then .err403 else .ok (some sampleEntries)

/-- Constant model of the `random.uniform(5, 10)` draw. -/
def randConst : Nat → ℚ := fun _ => 6

/-! ## Resume tracker and harvest setup (source `scrape_videos`,
lines 448-508) -/

/-- The reading of one CSV row stream: each element either parses to a
list of fields or raises (`Except.error`). -/
abbrev CsvStream := List (Except Unit (List String))

/-- Python `set.add` on strings, keeping insertion order. -/
def setInsert (acc : List String) (x : String) : List String :=
  if x ∈ acc then acc else acc ++ [x]

/-- The `for row in reader` loop of the resume logic (source lines
485-487), inside the `try`: a parse failure stops the loop but the
`except: pass` keeps everything accumulated so far; empty rows are
skipped; the first column of every other row is added to the set. -/
def read_resume_loop : CsvStream → List String → List String
  | [], acc => acc
  | (.error _) :: _, acc => acc
  | (.ok row) :: rest, acc =>
    match row with
    | [] => read_resume_loop rest acc
    | h :: _ => read_resume_loop rest (setInsert acc h)

/-- The resume read of an existing output file (source lines 480-489):
`next(reader)` skips the header (a failure there, including an empty
file, is caught and yields no prior progress), then the loop collects
first columns. -/
def read_resume (rows : CsvStream) : List String :=
  match rows with
  | [] => []
  | (.error _) :: _ => []
  | (.ok _) :: rest => read_resume_loop rest []

/-- `keywords_to_do = [k for k in keywords if k not in processed_keywords]`
(source line 496). -/
def keywords_to_do (keywords processed : List String) : List String :=
  keywords.filter (fun k => !(processed.contains k))

/-- The header row written to a fresh output file (source line 494). -/
def video_csv_header : List String :=
  ["Keyword", "Rank", "Video Title", "Channel", "Views", "Video Link", "Duration"]

/-- The output path of `scrape_videos` (source line 476):
`f"{descriptive_name}_{timestamp}.csv"` (the folder prefix is constant
and omitted). -/
def output_file_name (descriptive_name timestamp : String) : String :=
  descriptive_name ++ "_" ++ timestamp ++ ".csv"

/-- The observable result of the setup phase of `scrape_videos`:
the output file's content after setup, the resume set, and the keywords
scheduled for harvesting. -/
structure HarvestSetup where
  file_rows : CsvStream
  processed_keywords : List String
  keywords_to_run : List String
deriving Repr

/-- The setup phase of `scrape_videos` (source lines 469-496), with the
filesystem modelled as a map from path to optional parsed content:
build the timestamped output path; if a file exists there, read the
resume set from it; otherwise create the file with only the header row
and an empty resume set; then schedule every keyword not in the resume
set. -/
def scrape_videos_setup (fs : String → Option CsvStream)
    (descriptive_name timestamp : String) (keywords : List String) :
    HarvestSetup :=
  let output_file := output_file_name descriptive_name timestamp
  match fs output_file with
  | some rows =>
    { file_rows := rows, processed_keywords := read_resume rows,
      keywords_to_run := keywords_to_do keywords (read_resume rows) }
  | none =>
    { file_rows := [.ok video_csv_header], processed_keywords := [],
      keywords_to_run := keywords_to_do keywords [] }

/-! ## Helper lemmas: association lists and `accept_child` -/

theorem lookupKV_insert_self {α : Type} (m : List (String × α)) (k : String)
    (v : α) : lookupKV (insertKV m k v) k = some v := by
  simp [lookupKV, insertKV, List.find?]

theorem lookupKV_insert_ne {α : Type} (m : List (String × α)) (k k2 : String)
    (v : α) (h : k2 ≠ k) : lookupKV (insertKV m k v) k2 = lookupKV m k2 := by
  have hb : (k == k2) = false := beq_eq_false_iff_ne.mpr (fun hh => h hh.symm)
  simp [lookupKV, insertKV, List.find?, hb]

theorem accept_child_collected (st : FrontierState) (kw s : String) (d : Nat) :
    (accept_child st kw s d).collected = st.collected := by
  by_cases h : s ∈ st.collected <;> simp [accept_child, h]

theorem accept_child_tree (st : FrontierState) (kw s : String) (d : Nat) :
    (accept_child st kw s d).keyword_tree = st.keyword_tree ++ [(kw, s)] := by
  by_cases h : s ∈ st.collected <;> simp [accept_child, h]

theorem accept_child_source_stable (st : FrontierState) (kw s : String)
    (d : Nat) (t : String) (h : (lookupKV st.keyword_source t).isSome) :
    lookupKV (accept_child st kw s d).keyword_source t
      = lookupKV st.keyword_source t := by
  by_cases hc : s ∈ st.collected
  · simp [accept_child, hc]
  · by_cases hs : (lookupKV st.keyword_source s).isSome
    · simp [accept_child, hc, hs]
    · have hts : t ≠ s := by
        intro he
        rw [he] at h
        exact hs h
      simp [accept_child, hc, hs, lookupKV_insert_ne _ _ _ _ hts]

theorem accept_child_maps_stable_of_collected (st : FrontierState)
    (kw s : String) (d : Nat) (t : String) (h : t ∈ st.collected) :
    lookupKV (accept_child st kw s d).depth_map t = lookupKV st.depth_map t
    ∧ lookupKV (accept_child st kw s d).keyword_source t
        = lookupKV st.keyword_source t := by
  by_cases hc : s ∈ st.collected
  · simp [accept_child, hc]
  · have hts : t ≠ s := fun he => hc (he ▸ h)
    constructor
    · simp [accept_child, hc, lookupKV_insert_ne _ _ _ _ hts]
    · by_cases hs : (lookupKV st.keyword_source s).isSome
      · simp [accept_child, hc, hs]
      · simp [accept_child, hc, hs, lookupKV_insert_ne _ _ _ _ hts]

theorem accept_child_depth_overwrite (st : FrontierState) (kw s : String)
    (d : Nat) (h : s ∉ st.collected) :
    lookupKV (accept_child st kw s d).depth_map s = some (d + 1) := by
  simp [accept_child, h, lookupKV_insert_self]

theorem expand_children_nil (kw : String) (d : Nat) (st : FrontierState) :
    expand_children kw d st [] = st := rfl

theorem expand_children_cons (kw : String) (d : Nat) (st : FrontierState)
    (s : String) (rest : List String) :
    expand_children kw d st (s :: rest)
      = expand_children kw d
          (if is_allowed s then accept_child st kw s d else st) rest := rfl

theorem expand_children_collected (kw : String) (d : Nat)
    (sugg : List String) :
    ∀ st : FrontierState, (expand_children kw d st sugg).collected = st.collected := by
  induction sugg with
  | nil => intro st; rfl
  | cons s rest ih =>
    intro st
    rw [expand_children_cons]
    by_cases ha : is_allowed s = true
    · rw [if_pos ha, ih, accept_child_collected]
    · rw [if_neg ha, ih]

theorem expand_children_source_stable (kw : String) (d : Nat) (t : String)
    (sugg : List String) :
    ∀ st : FrontierState, (lookupKV st.keyword_source t).isSome →
      lookupKV (expand_children kw d st sugg).keyword_source t
        = lookupKV st.keyword_source t := by
  induction sugg with
  | nil => intro st _; rfl
  | cons s rest ih =>
    intro st h
    rw [expand_children_cons]
    by_cases ha : is_allowed s = true
    · rw [if_pos ha]
      have h2 := accept_child_source_stable st kw s d t h
      have h3 : (lookupKV (accept_child st kw s d).keyword_source t).isSome := by
        rw [h2]; exact h
      rw [ih _ h3, h2]
    · rw [if_neg ha]
      exact ih st h

theorem expand_children_maps_stable_of_collected (kw : String) (d : Nat)
    (t : String) (sugg : List String) :
    ∀ st : FrontierState, t ∈ st.collected →
      lookupKV (expand_children kw d st sugg).depth_map t
        = lookupKV st.depth_map t
      ∧ lookupKV (expand_children kw d st sugg).keyword_source t
        = lookupKV st.keyword_source t := by
  induction sugg with
  | nil => intro st _; exact ⟨rfl, rfl⟩
  | cons s rest ih =>
    intro st h
    rw [expand_children_cons]
    by_cases ha : is_allowed s = true
    · rw [if_pos ha]
      have h2 := accept_child_maps_stable_of_collected st kw s d t h
      have h3 : t ∈ (accept_child st kw s d).collected := by
        rw [accept_child_collected]; exact h
      have h4 := ih (accept_child st kw s d) h3
      exact ⟨h4.1.trans h2.1, h4.2.trans h2.2⟩
    · rw [if_neg ha]
      exact ih st h

theorem keyword_worker_step_eq (mk md : Nat) (st : FrontierState)
    (kw : String) (sugg : List String) :
    keyword_worker_step mk md st kw sugg =
      if st.collected.length ≥ mk then (st, false)
      else if (lookupKV st.depth_map kw).getD 0 > md then (st, false)
      else (expand_children kw ((lookupKV st.depth_map kw).getD 0)
              (if kw ∈ st.collected then st
               else { st with collected := st.collected ++ [kw] }) sugg,
            true) := rfl

/-! ## Claim C1: depth/origin assignment discipline -/

/-- C1 (corrected): origin (`keyword_source`) is first-writer-wins —
once set it is never overwritten by any later discovery — and for a term
already in `collected` neither its depth nor its origin ever changes
again; but the depth of a not-yet-collected term is reassigned to
`parent depth + 1` on every discovery (the `s not in collected` guard
does not protect an existing `depth_map` entry), so depth is
last-writer-wins until collection, not first-writer-wins. -/
theorem C1_theorem (mk md : Nat) (st : FrontierState) (kw : String)
    (sugg : List String) (t : String) :
    ((lookupKV st.keyword_source t).isSome →
      lookupKV (keyword_worker_step mk md st kw sugg).1.keyword_source t
        = lookupKV st.keyword_source t)
    ∧ (t ∈ st.collected →
        t ∈ (keyword_worker_step mk md st kw sugg).1.collected
        ∧ lookupKV (keyword_worker_step mk md st kw sugg).1.depth_map t
            = lookupKV st.depth_map t
        ∧ lookupKV (keyword_worker_step mk md st kw sugg).1.keyword_source t
            = lookupKV st.keyword_source t)
    ∧ (∀ (s2 : String) (d2 : Nat), s2 ∉ st.collected →
        lookupKV (accept_child st kw s2 d2).depth_map s2 = some (d2 + 1)) := by
  rw [keyword_worker_step_eq]
  by_cases h1 : st.collected.length ≥ mk
  · rw [if_pos h1]
    exact ⟨fun _ => rfl, fun ht => ⟨ht, rfl, rfl⟩,
           fun s2 d2 hs => accept_child_depth_overwrite st kw s2 d2 hs⟩
  · rw [if_neg h1]
    by_cases h2 : (lookupKV st.depth_map kw).getD 0 > md
    · rw [if_pos h2]
      exact ⟨fun _ => rfl, fun ht => ⟨ht, rfl, rfl⟩,
             fun s2 d2 hs => accept_child_depth_overwrite st kw s2 d2 hs⟩
    · rw [if_neg h2]
      have hsrc : (if kw ∈ st.collected then st
          else { st with collected := st.collected ++ [kw] }).keyword_source
          = st.keyword_source := by split <;> rfl
      have hdep : (if kw ∈ st.collected then st
          else { st with collected := st.collected ++ [kw] }).depth_map
          = st.depth_map := by split <;> rfl
      have hcoll : ∀ x : String, x ∈ st.collected →
          x ∈ (if kw ∈ st.collected then st
               else { st with collected := st.collected ++ [kw] }).collected := by
        intro x hx
        split
        · exact hx
        · exact List.mem_append_left _ hx
      refine ⟨?_, ?_, ?_⟩
      · intro h
        have h5 : (lookupKV (if kw ∈ st.collected then st
            else { st with collected := st.collected ++ [kw] }).keyword_source t).isSome := by
          rw [hsrc]; exact h
        have h6 := expand_children_source_stable kw
          ((lookupKV st.depth_map kw).getD 0) t sugg _ h5
        rw [h6, hsrc]
      · intro ht
        have ht1 := hcoll t ht
        have hm := expand_children_maps_stable_of_collected kw
          ((lookupKV st.depth_map kw).getD 0) t sugg _ ht1
        refine ⟨?_, ?_, ?_⟩
        · show t ∈ (expand_children _ _ _ sugg).collected
          rw [expand_children_collected]
          exact ht1
        · show lookupKV (expand_children _ _ _ sugg).depth_map t = _
          rw [hm.1, hdep]
        · show lookupKV (expand_children _ _ _ sugg).keyword_source t = _
          rw [hm.2, hsrc]
      · exact fun s2 d2 hs => accept_child_depth_overwrite st kw s2 d2 hs

/-- C1 witness: a concrete state where term "t" already has origin "o"
and depth 1; re-discovering it through parent "p" changes nothing, and a
fresh term "u" discovered at parent depth 0 gets depth 1. -/
theorem C1_witness :
    lookupKV (keyword_worker_step 5000 4
        ⟨["t"], [], [("t", 1), ("p", 0)], [("t", "o"), ("p", "p")], []⟩
        "p" ["t", "u"]).1.keyword_source "t"
      = lookupKV (FrontierState.mk ["t"] [] [("t", 1), ("p", 0)]
          [("t", "o"), ("p", "p")] []).keyword_source "t"
    ∧ "t" ∈ (keyword_worker_step 5000 4
        ⟨["t"], [], [("t", 1), ("p", 0)], [("t", "o"), ("p", "p")], []⟩
        "p" ["t", "u"]).1.collected
    ∧ lookupKV (accept_child
        ⟨["t"], [], [("t", 1), ("p", 0)], [("t", "o"), ("p", "p")], []⟩
        "p" "u" 0).depth_map "u" = some 1 :=
  ⟨(C1_theorem 5000 4
      ⟨["t"], [], [("t", 1), ("p", 0)], [("t", "o"), ("p", "p")], []⟩
      "p" ["t", "u"] "t").1 (by decide),
   ((C1_theorem 5000 4
      ⟨["t"], [], [("t", 1), ("p", 0)], [("t", "o"), ("p", "p")], []⟩
      "p" ["t", "u"] "t").2.1 (by decide)).1,
   (C1_theorem 5000 4
      ⟨["t"], [], [("t", 1), ("p", 0)], [("t", "o"), ("p", "p")], []⟩
      "p" ["t", "u"] "t").2.2 "u" 0 (by decide)⟩

/-- C1 counterexample: with seed "alpha" suggesting "beta" and "gamma"
and "beta" suggesting "gamma", the term "gamma" is discovered first at
depth 1 and then — before it is ever collected — re-discovered through
"beta", whereupon its recorded depth changes from 1 to 2: the depth is
NOT assigned exactly once with first-writer-wins semantics. -/
theorem C1_counterexample :
    lookupKV (run_workers MAX_KEYWORDS MAX_DEPTH suggOracle 1
        (init_frontier ["alpha"])).1.depth_map "gamma" = some 1
    ∧ lookupKV (run_workers MAX_KEYWORDS MAX_DEPTH suggOracle 2
        (init_frontier ["alpha"])).1.depth_map "gamma" = some 2
    ∧ "gamma" ∉ (run_workers MAX_KEYWORDS MAX_DEPTH suggOracle 1
        (init_frontier ["alpha"])).1.collected
    ∧ "gamma" ∉ (run_workers MAX_KEYWORDS MAX_DEPTH suggOracle 2
        (init_frontier ["alpha"])).1.collected
    ∧ lookupKV (run_workers MAX_KEYWORDS MAX_DEPTH suggOracle 2
        (init_frontier ["alpha"])).1.depth_map "gamma"
      ≠ lookupKV (run_workers MAX_KEYWORDS MAX_DEPTH suggOracle 1
        (init_frontier ["alpha"])).1.depth_map "gamma" := by
  decide

/-! ## Claim C2: the enqueue guard and duplicate expansion -/

/-- C2 (corrected): what the membership guard actually ensures is that a
term already in `collected` is never re-enqueued and its maps are left
untouched — a later discovery of a collected term records only the
lineage edge.  It does not make expansion at-most-once per run (see the
counterexample). -/
theorem C2_theorem (st : FrontierState) (kw s : String) (depth : Nat)
    (h : s ∈ st.collected) :
    accept_child st kw s depth
      = { st with keyword_tree := st.keyword_tree ++ [(kw, s)] } := by
  simp [accept_child, h]

/-- C2 witness: re-discovering the already-collected term "s" only
appends the lineage edge. -/
theorem C2_witness :
    accept_child ⟨["s"], ["x"], [("s", 1)], [("s", "o")], []⟩ "p" "s" 3
      = ⟨["s"], ["x"], [("s", 1)], [("s", "o")], [("p", "s")]⟩ :=
  C2_theorem ⟨["s"], ["x"], [("s", 1)], [("s", "o")], []⟩ "p" "s" 3 (by decide)

/-- C2 counterexample: in a fully sequential run with seed "alpha"
(suggesting "beta" and "gamma") and "beta" (suggesting "gamma"), the
term "gamma" is enqueued by both parents before it is first collected,
and its expansion — the suggestion fetch and child processing — runs
twice, refuting "performed at most once per run". -/
theorem C2_counterexample :
    (run_workers MAX_KEYWORDS MAX_DEPTH suggOracle 4
        (init_frontier ["alpha"])).2.count "gamma" = 2
    ∧ ¬ ((run_workers MAX_KEYWORDS MAX_DEPTH suggOracle 4
        (init_frontier ["alpha"])).2.count "gamma" ≤ 1) := by
  decide

/-! ## Claim C7: depth enforcement on claimed terms -/

/-- C7 (confirmed): a claimed term whose recorded depth exceeds the
depth bound leaves the state completely unchanged and is not expanded
(no suggestion fetch, no collection, no children), while at discovery
time `accept_child` had recorded the lineage edge from its parent
unconditionally. -/
theorem C7_theorem (mk md : Nat) (st : FrontierState) (kw : String)
    (sugg : List String)
    (h : (lookupKV st.depth_map kw).getD 0 > md) :
    keyword_worker_step mk md st kw sugg = (st, false)
    ∧ ∀ (st2 : FrontierState) (p c : String) (d : Nat),
        (accept_child st2 p c d).keyword_tree = st2.keyword_tree ++ [(p, c)] := by
  constructor
  · rw [keyword_worker_step_eq]
    by_cases h1 : st.collected.length ≥ mk
    · rw [if_pos h1]
    · rw [if_neg h1, if_pos h]
  · exact fun st2 p c d => accept_child_tree st2 p c d

/-- C7 witness: a term recorded at depth 5 with MAX_DEPTH = 4 is skipped
without any state change, and a concrete `accept_child` call records the
lineage edge. -/
theorem C7_witness :
    keyword_worker_step 5000 4 ⟨[], [], [("deep", 5)], [], []⟩ "deep" ["x"]
      = (⟨[], [], [("deep", 5)], [], []⟩, false)
    ∧ (accept_child ⟨[], [], [], [], []⟩ "p" "c" 7).keyword_tree = [("p", "c")] :=
  ⟨(C7_theorem 5000 4 ⟨[], [], [("deep", 5)], [], []⟩ "deep" ["x"]
      (by decide)).1,
   (C7_theorem 5000 4 ⟨[], [], [("deep", 5)], [], []⟩ "deep" ["x"]
      (by decide)).2 ⟨[], [], [], [], []⟩ "p" "c" 7⟩

/-! ## Claim C4: zero-word keywords in the relevance scorer -/

/-- C4 (code bug): the code's own `if not k_words: return False` guard
shows a keyword with zero words after normalization is meant to be
judged not relevant, but that guard is unreachable: the empty normalized
keyword is a Python substring of every title, so the containment
shortcut fires first and the scorer judges the pair RELEVANT under both
policies.  This theorem evaluates the code at the failing inputs: an
empty keyword and a whitespace-only keyword (both normalizing to zero
words) are judged relevant against an arbitrary unrelated title. -/
theorem C4_theorem :
    is_video_relevant "strict" "" "totally unrelated clip" = true
    ∧ is_video_relevant "relaxed" "" "totally unrelated clip" = true
    ∧ normalize_text "   " = ""
    ∧ is_video_relevant "strict" "   " "totally unrelated clip" = true
    ∧ is_video_relevant "relaxed" "   " "totally unrelated clip" = true
    ∧ wordsOf (normalize_text "   ") = [] := by
  decide

/-! ## Claim C5: the relevance scoring policy -/

/-- C5 (confirmed): substring containment of the normalized keyword in
the normalized title makes the pair relevant under every policy;
otherwise the strict policy accepts exactly when the word-set
intersection reaches (word count − 1) for a multi-word keyword, else 1,
and the relaxed policy accepts exactly when the intersection over the
keyword's word count reaches 1/2 — with the claim's three concrete
examples checked.  (For the relaxed branch, Python's float comparison
coincides with the exact rational comparison at these magnitudes.) -/
theorem C5_theorem :
    (∀ pol kw title : String,
      strContains (normalize_text title) (normalize_text kw) = true →
      is_video_relevant pol kw title = true)
    ∧ (∀ kw title : String,
      strContains (normalize_text title) (normalize_text kw) = false →
      (is_video_relevant "strict" kw title = true ↔
        intersectionCount kw title ≥ requiredMatchesSpec kw))
    ∧ (∀ kw title : String,
      strContains (normalize_text title) (normalize_text kw) = false →
      (is_video_relevant "relaxed" kw title = true ↔
        ((intersectionCount kw title : ℚ) / (keywordWordCount kw : ℚ) ≥ 1 / 2)))
    ∧ is_video_relevant "strict" "cat video" "Best Cat Video Ever" = true
    ∧ is_video_relevant "strict" "cat video" "totally unrelated clip" = false
    ∧ is_video_relevant "relaxed" "cat video" "cat pictures and more" = true := by
  refine ⟨?_, ?_, ?_, by decide, by decide, by decide⟩
  · intro pol kw title h
    simp [is_video_relevant, h]
  · intro kw title h
    by_cases he : (wordsOf (normalize_text kw)).isEmpty = true
    · have hemp : wordsOf (normalize_text kw) = [] := by
        simpa using he
      simp [is_video_relevant, h, he, intersectionCount, requiredMatchesSpec,
            keywordWordCount, hemp]
    · simp [is_video_relevant, h, he, intersectionCount, requiredMatchesSpec,
            keywordWordCount]
  · intro kw title h
    by_cases he : (wordsOf (normalize_text kw)).isEmpty = true
    · have hemp : wordsOf (normalize_text kw) = [] := by
        simpa using he
      simp only [is_video_relevant, h, Bool.false_eq_true, if_false, he,
        if_true, intersectionCount, keywordWordCount, hemp]
      norm_num
    · have hne : wordsOf (normalize_text kw) ≠ [] := by
        simpa using he
      have hpos : 0 < (wordsOf (normalize_text kw)).length :=
        List.length_pos.mpr hne
      have hq : 0 < ((wordsOf (normalize_text kw)).length : ℚ) := by
        exact_mod_cast hpos
      simp only [is_video_relevant, h, Bool.false_eq_true, if_false, he,
        intersectionCount, keywordWordCount]
      rw [if_neg (by decide : ¬ ("relaxed" = "strict"))]
      rw [decide_eq_true_iff]
      constructor
      · intro h7
        rw [ge_iff_le, le_div_iff₀ hq]
        have h8 : ((wordsOf (normalize_text kw)).length : ℚ)
            ≤ 2 * (((wordsOf (normalize_text kw)).filter
                (fun w => (wordsOf (normalize_text title)).contains w)).length : ℚ) := by
          exact_mod_cast h7
        linarith
      · intro h7
        rw [ge_iff_le, le_div_iff₀ hq] at h7
        have h8 : ((wordsOf (normalize_text kw)).length : ℚ)
            ≤ 2 * (((wordsOf (normalize_text kw)).filter
                (fun w => (wordsOf (normalize_text title)).contains w)).length : ℚ) := by
          linarith
        exact_mod_cast h8

/-- C5 witness: the three policy branches applied at the claim's own
example inputs. -/
theorem C5_witness :
    is_video_relevant "whatever" "cat video" "Best Cat Video Ever" = true
    ∧ (is_video_relevant "strict" "cat video" "totally unrelated clip" = true ↔
        intersectionCount "cat video" "totally unrelated clip"
          ≥ requiredMatchesSpec "cat video")
    ∧ (is_video_relevant "relaxed" "cat video" "cat pictures and more" = true ↔
        ((intersectionCount "cat video" "cat pictures and more" : ℚ)
          / (keywordWordCount "cat video" : ℚ) ≥ 1 / 2)) :=
  ⟨C5_theorem.1 "whatever" "cat video" "Best Cat Video Ever" (by decide),
   C5_theorem.2.1 "cat video" "totally unrelated clip" (by decide),
   C5_theorem.2.2.1 "cat video" "cat pictures and more" (by decide)⟩

/-! ## Claim C6: search-client retry policy and title dropping -/

/-- C6 (confirmed): within the 3-attempt budget, a 429-equivalent error
sleeps the fixed 60-second cooldown and abandons the term with no
further attempt in this call; a 403/Forbidden-equivalent error sleeps a
randomized backoff of `uniform(5,10) + 5*attempt` seconds — between
`5 + 5i` and `10 + 5i`, non-decreasing in the attempt number — and
retries, abandoning only once the three attempts are exhausted; any
other error abandons immediately; and entries without a title are
dropped before rows are built (filtering them out beforehand changes
nothing). -/
theorem C6_theorem :
    (∀ (kw : String) (fetch : Nat → FetchResult) (rand : Nat → ℚ),
      fetch 0 = .err429 →
      scrape_single_keyword kw fetch rand
        = { rows := [], committed := false,
            events := [.attempt 0, .wait 60] })
    ∧ (∀ (kw : String) (fetch : Nat → FetchResult) (rand : Nat → ℚ),
      fetch 0 = .err403 → fetch 1 = .err403 → fetch 2 = .err403 →
      scrape_single_keyword kw fetch rand
        = { rows := [], committed := false,
            events := [.attempt 0, .wait (rand 0), .attempt 1,
                       .wait (rand 1 + 5), .attempt 2] })
    ∧ (∀ (kw : String) (fetch : Nat → FetchResult) (rand : Nat → ℚ),
      fetch 0 = .errOther →
      scrape_single_keyword kw fetch rand
        = { rows := [], committed := false, events := [.attempt 0] })
    ∧ (∀ (kw : String) (fetch : Nat → FetchResult) (rand : Nat → ℚ)
        (es : List (Option VideoEntry)),
      fetch 0 = .err403 → fetch 1 = .ok (some es) →
      scrape_single_keyword kw fetch rand
        = { rows := build_rows kw es 1, committed := true,
            events := [.attempt 0, .wait (rand 0), .attempt 1] })
    ∧ (∀ rand : Nat → ℚ, (∀ j, 5 ≤ rand j ∧ rand j ≤ 10) →
        ∀ i : Nat,
          5 + 5 * (i : ℚ) ≤ rand i + 5 * (i : ℚ)
          ∧ rand i + 5 * (i : ℚ) ≤ 10 + 5 * (i : ℚ)
          ∧ rand i + 5 * (i : ℚ) ≤ rand (i + 1) + 5 * ((i : ℚ) + 1))
    ∧ (∀ (kw : String) (entries : List (Option VideoEntry)) (rank : Nat),
        build_rows kw entries rank
          = build_rows kw (entries.filter entry_has_title) rank) := by
  have hr : List.range 3 = [0, 1, 2] := rfl
  refine ⟨?_, ?_, ?_, ?_, ?_, ?_⟩
  · intro kw fetch rand h0
    simp [scrape_single_keyword, hr, scrape_attempts, h0]
  · intro kw fetch rand h0 h1 h2
    simp [scrape_single_keyword, hr, scrape_attempts, h0, h1, h2, List.isEmpty]
  · intro kw fetch rand h0
    simp [scrape_single_keyword, hr, scrape_attempts, h0]
  · intro kw fetch rand es h0 h1
    simp [scrape_single_keyword, hr, scrape_attempts, h0, h1, List.isEmpty]
  · intro rand hb i
    have b1 := (hb i).1
    have b2 := (hb i).2
    have b3 := (hb (i + 1)).1
    exact ⟨by linarith, by linarith, by linarith⟩
  · intro kw entries rank
    induction entries generalizing rank with
    | nil => rfl
    | cons e rest ih =>
      cases e with
      | none => simpa [build_rows, entry_has_title, List.filter] using ih rank
      | some ev =>
        rcases hT : ev.title with _ | t
        · simp [build_rows, entry_has_title, hT, List.filter, ih rank]
        · by_cases ht : t = ""
          · simp [build_rows, entry_has_title, hT, ht, List.filter, ih rank]
          · have hbne : (t != "") = true := bne_iff_ne.mpr ht
            simp [build_rows, entry_has_title, hT, ht, hbne, List.filter,
                  ih (rank + 1)]

/-- C6 witness: the four retry-policy branches and the title filter at
concrete oracles, and the backoff bounds at the constant draw 6. -/
theorem C6_witness :
    scrape_single_keyword "kw" fetch429 randConst
      = { rows := [], committed := false, events := [.attempt 0, .wait 60] }
    ∧ scrape_single_keyword "kw" fetch403 randConst
      = { rows := [], committed := false,
          events := [.attempt 0, .wait (randConst 0), .attempt 1,
                     .wait (randConst 1 + 5), .attempt 2] }
    ∧ scrape_single_keyword "kw" fetchOther randConst
      = { rows := [], committed := false, events := [.attempt 0] }
    ∧ scrape_single_keyword "kw" fetch403ThenOk randConst
      = { rows := build_rows "kw" sampleEntries 1, committed := true,
          events := [.attempt 0, .wait (randConst 0), .attempt 1] }
    ∧ (5 + 5 * ((2 : Nat) : ℚ) ≤ randConst 2 + 5 * ((2 : Nat) : ℚ)
        ∧ randConst 2 + 5 * ((2 : Nat) : ℚ) ≤ 10 + 5 * ((2 : Nat) : ℚ)
        ∧ randConst 2 + 5 * ((2 : Nat) : ℚ)
            ≤ randConst 3 + 5 * (((2 : Nat) : ℚ) + 1))
    ∧ build_rows "kw" sampleEntries 1
        = build_rows "kw" (sampleEntries.filter entry_has_title) 1 :=
  ⟨C6_theorem.1 "kw" fetch429 randConst rfl,
   C6_theorem.2.1 "kw" fetch403 randConst rfl rfl rfl,
   C6_theorem.2.2.1 "kw" fetchOther randConst rfl,
   C6_theorem.2.2.2.1 "kw" fetch403ThenOk randConst sampleEntries rfl rfl,
   C6_theorem.2.2.2.2.1 randConst
     (fun j => ⟨by norm_num [randConst], by norm_num [randConst]⟩) 2,
   C6_theorem.2.2.2.2.2 "kw" sampleEntries 1⟩

/-! ## Claim C8: duration normalization -/

/-- C8 counterexample: a known duration of 0 seconds is falsy in Python
(`if duration_sec:`), so the code yields the sentinel "N/A" where the
claim's normalization rule yields "0:00". -/
theorem C8_counterexample :
    duration_of_entry none (some 0) = "N/A"
    ∧ duration_spec (some 0) = "0:00"
    ∧ duration_of_entry none (some 0) ≠ duration_spec (some 0) := by
  decide

/-- C8 (corrected): for an entry without a preformatted duration string,
a POSITIVE duration in seconds is normalized exactly as the claim says
(`H:MM:SS` when hours > 0, else `M:SS`), while a missing — or zero,
since `0` is falsy in Python — duration maps to "N/A"; in particular
45 s gives "0:45" and 3725 s gives "1:02:05". -/
theorem C8_theorem (ds : Option String) (d : Option Nat)
    (hds : ds = none ∨ ds = some "") :
    (∀ n : Nat, d = some n → n ≠ 0 → duration_of_entry ds d = duration_spec d)
    ∧ (d = none ∨ d = some 0 → duration_of_entry ds d = "N/A")
    ∧ duration_of_entry none (some 45) = "0:45"
    ∧ duration_of_entry none (some 3725) = "1:02:05" := by
  have hcore : ∀ n : Nat, n ≠ 0 → format_duration n = duration_spec (some n) := by
    intro n hn
    have h1 : n / 60 / 60 = n / 3600 := by
      rw [Nat.div_div_eq_div_mul]
    have h2 : n / 60 % 60 = n % 3600 / 60 := by
      have h3 := (Nat.mod_mul_right_div_self n 60 60).symm
      simpa using h3
    simp only [format_duration, duration_spec]
    rw [h1, h2]
  refine ⟨?_, ?_, by decide, by decide⟩
  · intro n hd hn
    subst hd
    rcases hds with h | h <;> subst h
    · simp only [duration_of_entry, duration_from_sec, if_neg hn]
      exact hcore n hn
    · simp only [duration_of_entry, duration_from_sec, if_pos rfl, if_neg hn]
      exact hcore n hn
  · intro hd
    rcases hds with h | h <;> subst h <;>
      rcases hd with h2 | h2 <;> subst h2 <;> rfl

/-- C8 witness: the amended normalization applied at 45 seconds, plus
the sentinel cases. -/
theorem C8_witness :
    duration_of_entry none (some 45) = duration_spec (some 45)
    ∧ duration_of_entry none none = "N/A"
    ∧ duration_of_entry (some "") (some 0) = "N/A"
    ∧ duration_of_entry none (some 45) = "0:45"
    ∧ duration_of_entry none (some 3725) = "1:02:05" :=
  ⟨(C8_theorem none (some 45) (Or.inl rfl)).1 45 rfl (by decide),
   (C8_theorem none none (Or.inl rfl)).2.1 (Or.inl rfl),
   (C8_theorem (some "") (some 0) (Or.inr rfl)).2.1 (Or.inr rfl),
   (C8_theorem none (some 45) (Or.inl rfl)).2.2.1,
   (C8_theorem none (some 45) (Or.inl rfl)).2.2.2⟩

/-! ## Claim C9: the resume tracker -/

/-- Shared lemma: the resume loop stops at the first parse failure and
keeps exactly what was accumulated from the rows before it. -/
theorem read_resume_loop_trunc (post : CsvStream) :
    ∀ (pre : CsvStream) (acc : List String),
      read_resume_loop (pre ++ .error () :: post) acc
        = read_resume_loop pre acc := by
  intro pre
  induction pre with
  | nil => intro acc; rfl
  | cons e rest ih =>
    intro acc
    cases e with
    | error u => rfl
    | ok row =>
      cases row with
      | nil => simpa [read_resume_loop] using ih acc
      | cons h t => simpa [read_resume_loop] using ih (setInsert acc h)

/-- C9 counterexample: a file whose third row fails to parse still
yields the first column of the row read before the failure — a parse
failure is NOT treated as "no prior progress". -/
theorem C9_counterexample :
    read_resume [.ok ["Keyword", "Rank"], .ok ["alpha", "1"], .error (),
                 .ok ["beta", "1"]]
      = ["alpha"]
    ∧ read_resume [.ok ["Keyword", "Rank"], .ok ["alpha", "1"], .error (),
                   .ok ["beta", "1"]]
      ≠ ([] : List String) := by
  decide

/-- C9 (corrected): the first (header) row is skipped and its content is
irrelevant; the first-column values of the subsequent rows form the
resume set; a parse failure is non-fatal — it truncates the read,
keeping the rows already accumulated, and a failure at or before the
header (including an empty file) yields no prior progress; on the
claim's example the set is exactly {alpha, beta} and only "gamma"
remains to harvest. -/
theorem C9_theorem :
    (∀ (h1 h2 : List String) (rest : CsvStream),
      read_resume (.ok h1 :: rest) = read_resume (.ok h2 :: rest))
    ∧ (∀ (hrow : List String) (pre post : CsvStream),
      read_resume (.ok hrow :: (pre ++ .error () :: post))
        = read_resume (.ok hrow :: pre))
    ∧ read_resume [.ok video_csv_header, .ok ["alpha", "1", "t"],
                   .ok ["beta", "1", "t"]]
      = ["alpha", "beta"]
    ∧ keywords_to_do ["alpha", "beta", "gamma"] ["alpha", "beta"] = ["gamma"]
    ∧ read_resume ([] : CsvStream) = []
    ∧ (∀ rest : CsvStream, read_resume (.error () :: rest) = []) := by
  refine ⟨fun h1 h2 rest => rfl, ?_, by decide, by decide, rfl,
          fun rest => rfl⟩
  intro hrow pre post
  show read_resume_loop (pre ++ .error () :: post) [] = read_resume_loop pre []
  exact read_resume_loop_trunc post pre []

/-! ## Claim C10: fresh output file and the resume set -/

/-- C10 (confirmed): the output path embeds the timestamp generated at
harvest start; when no file with that exact fresh name exists, the file
is created with only the header row, the resume set is empty, and every
input keyword is scheduled; and the setup consults the filesystem only
at that one path, so output persisted under any other (earlier-
timestamped) name can never influence the resume-skip. -/
theorem C10_theorem (fs : String → Option CsvStream)
    (descriptive_name timestamp : String) (keywords : List String)
    (h : fs (output_file_name descriptive_name timestamp) = none) :
    (scrape_videos_setup fs descriptive_name timestamp keywords).processed_keywords
      = []
    ∧ (scrape_videos_setup fs descriptive_name timestamp keywords).keywords_to_run
      = keywords
    ∧ (scrape_videos_setup fs descriptive_name timestamp keywords).file_rows
      = [.ok video_csv_header]
    ∧ (∀ fs2 : String → Option CsvStream,
        fs2 (output_file_name descriptive_name timestamp)
          = fs (output_file_name descriptive_name timestamp) →
        scrape_videos_setup fs2 descriptive_name timestamp keywords
          = scrape_videos_setup fs descriptive_name timestamp keywords) := by
  have hto : keywords_to_do keywords [] = keywords := by
    simp [keywords_to_do]
  refine ⟨?_, ?_, ?_, ?_⟩
  · simp [scrape_videos_setup, h]
  · simp [scrape_videos_setup, h, hto]
  · simp [scrape_videos_setup, h]
  · intro fs2 h2
    simp only [scrape_videos_setup]
    rw [h2]

/-- C10 witness: an empty filesystem, and a filesystem that differs from
it only away from the fresh output path. -/
theorem C10_witness :
    (scrape_videos_setup (fun _ => none) "name" "ts" ["a", "b"]).processed_keywords
      = []
    ∧ (scrape_videos_setup (fun _ => none) "name" "ts" ["a", "b"]).keywords_to_run
      = ["a", "b"]
    ∧ (scrape_videos_setup (fun _ => none) "name" "ts" ["a", "b"]).file_rows
      = [.ok video_csv_header]
    ∧ scrape_videos_setup
        (fun p => if p = output_file_name "name" "ts" then none
                  else some [.ok ["old", "1"]]) "name" "ts" ["a", "b"]
      = scrape_videos_setup (fun _ => none) "name" "ts" ["a", "b"] :=
  ⟨(C10_theorem (fun _ => none) "name" "ts" ["a", "b"] rfl).1,
   (C10_theorem (fun _ => none) "name" "ts" ["a", "b"] rfl).2.1,
   (C10_theorem (fun _ => none) "name" "ts" ["a", "b"] rfl).2.2.1,
   (C10_theorem (fun _ => none) "name" "ts" ["a", "b"] rfl).2.2.2
     (fun p => if p = output_file_name "name" "ts" then none
               else some [.ok ["old", "1"]]) (by simp)⟩

/-! ## Claim C3: endpoint iteration of the suggestion client -/

/-- Shared lemma: a structurally successful response (HTTP 200 whose
payload processing completes) ends the attempt loop of its endpoint at
once, logging exactly that one request. -/
theorem suggAttempts_success (resp : Nat → Nat → SuggResp) (e a : Nat)
    (rest : List Nat) (results results2 : List JsonAtom)
    (reqs : List (Nat × Nat)) (c : Option JsonVal)
    (h1 : resp e a = .http 200 c)
    (h2 : processPayload c results = (results2, true)) :
    suggAttempts resp e (a :: rest) results reqs
      = (results2, reqs ++ [(e, a)]) := by
  simp [suggAttempts, h1, h2]

/-- Shared lemma: the request log only grows during an endpoint's
attempt loop. -/
theorem suggAttempts_mem_mono (resp : Nat → Nat → SuggResp) (e : Nat) :
    ∀ (attempts : List Nat) (results : List JsonAtom)
      (reqs : List (Nat × Nat)) (x : Nat × Nat), x ∈ reqs →
      x ∈ (suggAttempts resp e attempts results reqs).2 := by
  intro attempts
  induction attempts with
  | nil => intro results reqs x hx; exact hx
  | cons a rest ih =>
    intro results reqs x hx
    have hx2 : x ∈ reqs ++ [(e, a)] := List.mem_append_left _ hx
    cases hresp : resp e a with
    | exn =>
      simpa [suggAttempts, hresp] using ih results (reqs ++ [(e, a)]) x hx2
    | http status content =>
      by_cases hs : status = 200
      · subst hs
        rcases hp : processPayload content results with ⟨r2, b⟩
        cases b
        · simpa [suggAttempts, hresp, hp] using
            ih r2 (reqs ++ [(e, a)]) x hx2
        · simpa [suggAttempts, hresp, hp] using hx2
      · by_cases h4 : status = 403
        · subst h4
          simpa [suggAttempts, hresp] using
            ih results (reqs ++ [(e, a)]) x hx2
        · simpa [suggAttempts, hresp, hs, h4] using hx2

/-- Shared lemma: an endpoint's attempt loop always issues its first
attempt, whatever the oracle does. -/
theorem suggAttempts_first_mem (resp : Nat → Nat → SuggResp) (e a : Nat)
    (rest : List Nat) (results : List JsonAtom)
    (reqs : List (Nat × Nat)) :
    (e, a) ∈ (suggAttempts resp e (a :: rest) results reqs).2 := by
  have hx2 : (e, a) ∈ reqs ++ [(e, a)] :=
    List.mem_append_right _ (List.mem_singleton.mpr rfl)
  cases hresp : resp e a with
  | exn =>
    simpa [suggAttempts, hresp] using
      suggAttempts_mem_mono resp e rest results (reqs ++ [(e, a)]) (e, a) hx2
  | http status content =>
    by_cases hs : status = 200
    · subst hs
      rcases hp : processPayload content results with ⟨r2, b⟩
      cases b
      · simpa [suggAttempts, hresp, hp] using
          suggAttempts_mem_mono resp e rest r2 (reqs ++ [(e, a)]) (e, a) hx2
      · simp [suggAttempts, hresp, hp, hx2]
    · by_cases h4 : status = 403
      · subst h4
        simp only [suggAttempts, hresp]
        exact suggAttempts_mem_mono resp e rest results (reqs ++ [(e, a)])
          (e, a) hx2
      · simp [suggAttempts, hresp, hs, h4, hx2]

/-- Shared lemma: folding the per-endpoint attempt loops preserves
logged requests and logs the first attempt of every endpoint in the
list. -/
theorem sugg_fold_mem (resp : Nat → Nat → SuggResp) :
    ∀ (l : List Nat) (acc : List JsonAtom × List (Nat × Nat)),
      (∀ x : Nat × Nat, x ∈ acc.2 →
        x ∈ (l.foldl
          (fun acc2 e => suggAttempts resp e (List.range 3) acc2.1 acc2.2)
          acc).2)
      ∧ (∀ e : Nat, e ∈ l →
        (e, 0) ∈ (l.foldl
          (fun acc2 e => suggAttempts resp e (List.range 3) acc2.1 acc2.2)
          acc).2) := by
  intro l
  induction l with
  | nil =>
    intro acc
    exact ⟨fun x hx => hx, fun e he => absurd he (List.not_mem_nil e)⟩
  | cons e0 rest ih =>
    intro acc
    have hr3 : List.range 3 = 0 :: [1, 2] := rfl
    constructor
    · intro x hx
      rw [List.foldl_cons]
      exact (ih _).1 x
        (suggAttempts_mem_mono resp e0 (List.range 3) acc.1 acc.2 x hx)
    · intro e he
      rw [List.foldl_cons]
      rcases List.mem_cons.mp he with he0 | hrest
      · subst he0
        refine (ih _).1 (e, 0) ?_
        rw [hr3]
        exact suggAttempts_first_mem resp e 0 [1, 2] acc.1 acc.2
      · exact (ih _).2 e hrest

/-- C3 (corrected): a structural success (HTTP 200 with a payload whose
processing completes) ends the retry attempts of ITS endpoint only; the
loop then moves on to the next endpoint — every configured endpoint is
queried at least once in every call, whatever the earlier endpoints
returned — and when two endpoints both succeed structurally the
returned set is the accumulated deduplicated union of both endpoints'
candidates, not just the first one's. -/
theorem C3_theorem :
    (∀ (resp : Nat → Nat → SuggResp) (e a : Nat) (rest : List Nat)
       (results results2 : List JsonAtom) (reqs : List (Nat × Nat))
       (c : Option JsonVal),
      resp e a = .http 200 c → processPayload c results = (results2, true) →
      suggAttempts resp e (a :: rest) results reqs
        = (results2, reqs ++ [(e, a)]))
    ∧ (∀ resp : Nat → Nat → SuggResp, ∀ e : Nat, e < ENDPOINTS.length →
        (e, 0) ∈ (get_suggestions resp).2)
    ∧ (∀ (resp : Nat → Nat → SuggResp) (c0 c1 : Option JsonVal)
        (r1 r2 : List JsonAtom),
      resp 0 0 = .http 200 c0 → processPayload c0 [] = (r1, true) →
      resp 1 0 = .http 200 c1 → processPayload c1 r1 = (r2, true) →
      get_suggestions resp = (r2, [(0, 0), (1, 0)])) := by
  refine ⟨fun resp e a rest results results2 reqs c h1 h2 =>
      suggAttempts_success resp e a rest results results2 reqs c h1 h2,
    ?_, ?_⟩
  · intro resp e he
    exact (sugg_fold_mem resp (List.range ENDPOINTS.length) ([], [])).2 e
      (List.mem_range.mpr he)
  · intro resp c0 c1 r1 r2 h0 hp0 h1 hp1
    have hg : get_suggestions resp
        = suggAttempts resp 1 (List.range 3)
            (suggAttempts resp 0 (List.range 3) [] []).1
            (suggAttempts resp 0 (List.range 3) [] []).2 := rfl
    have hr3 : List.range 3 = 0 :: [1, 2] := rfl
    have s0 : suggAttempts resp 0 (List.range 3) [] [] = (r1, [(0, 0)]) := by
      rw [hr3]
      exact suggAttempts_success resp 0 0 [1, 2] [] r1 [] c0 h0 hp0
    have s1 : suggAttempts resp 1 (List.range 3) r1 [(0, 0)]
        = (r2, [(0, 0), (1, 0)]) := by
      rw [hr3]
      exact suggAttempts_success resp 1 0 [1, 2] r1 r2 [(0, 0)] c1 h1 hp1
    rw [hg, s0]
    exact s1

/-- C3 counterexample: with both endpoints structurally succeeding on
their first attempt (endpoint 0 yielding "a", endpoint 1 yielding "b"),
the call still queries endpoint 1 after endpoint 0's success, and the
returned set contains endpoint 1's candidate "b" — refuting "no
subsequent endpoint is queried" and "only that endpoint's
candidates". -/
theorem C3_counterexample :
    (get_suggestions respCex).1 = [.s "a", .s "b"]
    ∧ (get_suggestions respCex).2 = [(0, 0), (1, 0)]
    ∧ (get_suggestions respCex).2 ≠ [(0, 0)]
    ∧ JsonAtom.s "b" ∈ (get_suggestions respCex).1 := by
  refine ⟨rfl, rfl, by decide, by decide⟩

/-- C3 witness: the three parts applied at the concrete two-endpoint
oracle. -/
theorem C3_witness :
    suggAttempts respCex 0 (0 :: [1, 2]) [] [] = ([JsonAtom.s "a"], [(0, 0)])
    ∧ (1, 0) ∈ (get_suggestions respCex).2
    ∧ get_suggestions respCex
        = ([JsonAtom.s "a", JsonAtom.s "b"], [(0, 0), (1, 0)]) :=
  ⟨C3_theorem.1 respCex 0 0 [1, 2] [] [JsonAtom.s "a"] []
     (some (.l [.s "q", .l [.s "a"]])) rfl (by decide),
   C3_theorem.2.1 respCex 1 (by decide),
   C3_theorem.2.2 respCex (some (.l [.s "q", .l [.s "a"]]))
     (some (.l [.s "q", .l [.s "b"]])) [JsonAtom.s "a"]
     [JsonAtom.s "a", JsonAtom.s "b"] rfl (by decide) rfl (by decide)⟩
